import Mathlib

/-!
Verification development for the Raptor document-processing client SDK
(a TypeScript client in `src/index.ts`).

The embedding models the processing-lifecycle coordinator (`process` and
`processStream` of class `Raptor`), the client constructor's configuration
validation, the submission builder (form-data / query-string construction),
the chunk-fetch response handling (`getChunks`), and the wire-to-client
schema mapper (`transformVariant`).

Modelling conventions:
* JavaScript numbers are modelled as `Int` in payload fields and `Nat` in
  configuration/counter fields; none of the verified properties computes
  with fractional values.
* Opaque JSON payloads (`Record<string, any>` fields) are modelled as
  uninterpreted strings (`JsonValue`).
* An HTTP exchange is modelled by `FetchResult`: a transport failure, a
  non-2xx response (with the optional decoded `detail` field), or a 2xx
  response whose body either decodes to a typed value or is undecodable.
* `Date.now() - startTime` as observed at the wall-clock check of polling
  iteration `a` (1-based attempt counter) is modelled by an abstract
  function `elapsed : Nat → Nat`.
* The `while (true)` polling loops are modelled with an explicit iteration
  budget (`fuel`); a result of `none` means the budget was exhausted with
  the loop still running, so statements about sufficient fuel are exactly
  statements about termination within that many iterations.
* JavaScript truthiness defaulting (`x || d`) on numbers is `jsOr`
  (`0`, like `undefined`, falls back to the default) and on strings is
  `jsOrStr` (`""` falls back); destructuring defaults (`{ wait = true }`)
  are `Option.getD` (only `undefined` falls back).
-/

namespace RaptorSDK

/-- JavaScript `x || d` for an optional number: `undefined` and `0` both
fall back to the default. -/
def jsOr (value : Option Nat) (defaultValue : Nat) : Nat :=
  match value with
  | some n => if n = 0 then defaultValue else n
  | none => defaultValue

/-- JavaScript `s || d` for an optional string: `undefined` and `""` both
fall back to the default. -/
def jsOrStr (value : Option String) (defaultValue : String) : String :=
  match value with
  | some s => if s = "" then defaultValue else s
  | none => defaultValue

/-- Opaque JSON payloads (`Record<string, any>`) are modelled as
uninterpreted strings: the client only copies them verbatim. -/
abbrev JsonValue := String

/-- Outcome of one HTTP exchange, as the client observes it:
transport-level failure (`fetch` rejects), a non-2xx response carrying the
optional decoded `detail` field of its JSON body, or a 2xx response whose
body either decodes to the expected value (`okRaw (some v)`) or is
undecodable JSON (`okRaw none`). -/
inductive FetchResult (α : Type) where
  | networkError : FetchResult α
  | httpError (statusCode : Nat) (detail : Option String) : FetchResult α
  | okRaw (parsed : Option α) : FetchResult α
  deriving Repr

/-- Wire shape of the optional processing configuration inside a variant
(interface `BackendProcessingConfig`, `src/index.ts:782`). -/
structure BackendProcessingConfig where
  chunk_size : Option Int := none
  chunk_overlap : Option Int := none
  strategy : Option String := none
  process_images : Option Bool := none
  extract_section_numbers : Option Bool := none
  calculate_quality_scores : Option Bool := none
  min_chunk_quality : Option Int := none
  enable_smart_context : Option Bool := none
  table_extraction : Option Bool := none
  table_context_generation : Option Bool := none
  store_content : Option Bool := none
  deriving Repr, DecidableEq

/-- Wire shape of the nested embedding recommendations inside dedup stats. -/
structure BackendEmbeddingRecommendations where
  reuse : Option Int := none
  consider_reuse : Option Int := none
  regenerate : Option Int := none
  deriving Repr, DecidableEq

/-- Wire shape of the optional `dedup_stats` object of a variant. -/
structure BackendDedupStats where
  chunks_created : Int := 0
  chunks_reused : Int := 0
  total_chunks : Int := 0
  savings_percent : Int := 0
  chunks_high_reuse : Option Int := none
  chunks_partial_reuse : Option Int := none
  chunks_fuzzy_matched : Option Int := none
  total_sentences : Option Int := none
  reused_sentences : Option Int := none
  new_sentences : Option Int := none
  sentence_reuse_ratio : Option Int := none
  embedding_recommendations : Option BackendEmbeddingRecommendations := none
  deriving Repr, DecidableEq

/-- Wire shape of a processing variant (interface
`BackendProcessingVariant`, `src/index.ts:796`). `status` is a plain
string on the wire; the client only compares it with `"completed"` and
`"failed"`. -/
structure BackendProcessingVariant where
  id : String := ""
  version_id : String := ""
  config_hash : String := ""
  config : BackendProcessingConfig := {}
  status : String := ""
  error : Option String := none
  chunks_count : Int := 0
  total_tokens : Int := 0
  page_count : Option Int := none
  credits_charged : Option Int := none
  is_primary : Bool := false
  dedup_stats : Option BackendDedupStats := none
  retry_count : Option Int := none
  max_retries : Option Int := none
  is_retrying : Option Bool := none
  in_dlq : Option Bool := none
  created_at : String := ""
  processed_at : Option String := none
  deriving Repr, DecidableEq

/-- Wire shape of an upload (submission) response (interface
`BackendUploadResult`, `src/index.ts:847`). -/
structure BackendUploadResult where
  variant_id : String := ""
  document_id : String := ""
  version_id : String := ""
  version_number : Int := 1
  is_new_document : Bool := false
  is_new_version : Bool := false
  is_new_variant : Bool := false
  existing_match : Bool := false
  is_duplicate : Option Bool := none
  canonical_document_id : Option String := none
  processing_skipped : Option Bool := none
  cost_saved : Option Int := none
  status : String := ""
  task_id : Option String := none
  chunks_count : Option Int := none
  estimated_pages : Int := 0
  deduplication_available : Bool := false
  auto_linked : Option Bool := none
  auto_link_confidence : Option Int := none
  auto_link_explanation : Option (List String) := none
  auto_link_method : Option String := none
  parent_document_id : Option String := none
  deriving Repr, DecidableEq

/-- Wire shape of one chunk (interface `BackendChunk`, `src/index.ts:737`).
`page_range` and `section_hierarchy` are modelled as optional because the
client code defends against their absence (`c.page_range || []`). -/
structure BackendChunk where
  id : String := ""
  text : String := ""
  page_number : Option Int := none
  page_range : Option (List Int) := none
  section_hierarchy : Option (List String) := none
  tokens : Int := 0
  chunk_index : Int := 0
  metadata : JsonValue := ""
  chunk_type : Option String := none
  contains_table : Bool := false
  table_metadata : Option JsonValue := none
  chunking_strategy : Option String := none
  section_number : Option String := none
  quality_score : Option Int := none
  synthetic_context : Option String := none
  parent_chunk_id : Option String := none
  bounding_box : Option JsonValue := none
  dedup_strategy : Option String := none
  dedup_confidence : Option Int := none
  is_reused : Bool := false
  dedup_source_chunk_id : Option String := none
  total_sentences : Option Int := none
  reused_sentences_count : Option Int := none
  new_sentences_count : Option Int := none
  content_reuse_ratio : Option Int := none
  embedding_recommendation : Option String := none
  recommendation_confidence : Option String := none
  dedup_metadata : Option JsonValue := none
  deriving Repr, DecidableEq

/-- Decoded body of a 2xx chunk-fetch response. `chunks := none` models a
body in which the `chunks` field is missing or not an array (structurally
unexpected but decodable JSON); likewise `total := none`. -/
structure ChunksBody where
  chunks : Option (List BackendChunk) := none
  total : Option Int := none
  deriving Repr, DecidableEq

/-- The distinguishable failure outcomes of the coordinator. Each
constructor corresponds to one `throw` site of `process` / `processStream`
in `src/index.ts`; the source distinguishes them by error class
(`RaptorError` / `RaptorAPIError`) and message text (rendered by
`errorMessage` below). -/
inductive ProcessError where
  /-- `throw RaptorError` "Network error during upload: …" (line 1247). -/
  | uploadNetwork
  /-- `throw RaptorAPIError` "Upload failed: …" with the status code and
  decoded detail (line 1257). -/
  | uploadApi (statusCode : Nat) (detail : Option String)
  /-- `throw RaptorError` "Failed to parse upload response: …" (line 1268). -/
  | uploadParse
  /-- `throw RaptorError` "Upload response missing variant ID" (line 1275). -/
  | missingVariantId
  /-- `throw RaptorError` "Processing timeout: exceeded N polling attempts"
  (line 1314): the attempt-count ceiling. -/
  | timeoutAttempts (maxAttempts : Nat)
  /-- `throw RaptorError` "Processing timeout: exceeded Tms" (line 1321):
  the wall-clock ceiling. -/
  | timeoutElapsed (pollTimeoutMs : Nat)
  /-- `throw RaptorError` "Network error during status check: …" (line 1337). -/
  | statusNetwork
  /-- `throw RaptorAPIError` "Status check failed: …" (line 1347). -/
  | statusApi (statusCode : Nat) (detail : Option String)
  /-- `throw RaptorError` "Failed to parse status response: …" (line 1359). -/
  | statusParse
  /-- `throw RaptorError` "Processing failed: …" (line 1367), carrying
  `variant.error || 'Unknown error'`. -/
  | processingFailed (message : String)
  /-- `throw RaptorError` "Network error while fetching chunks: …" (line 1387). -/
  | chunksNetwork
  /-- `throw RaptorAPIError` "Failed to get chunks: …" (line 1397). -/
  | chunksApi (statusCode : Nat) (detail : Option String)
  /-- `throw RaptorError` "Failed to parse chunks response: …" (line 1411). -/
  | chunksParse
  /-- `throw RaptorAPIError` "Upload failed" in `processStream` (line 1566). -/
  | streamUploadFailed (statusCode : Nat)
  /-- An exception that the source does not catch at the site where it is
  raised (it leaks to the caller unwrapped), e.g. the unprotected
  `uploadResponse.json()` of `processStream`. -/
  | rawException
  deriving Repr, DecidableEq

/-- The message text of the source's `throw` for each failure outcome. -/
def errorMessage : ProcessError → String
  | ProcessError.uploadNetwork => "Network error during upload"
  | ProcessError.uploadApi code detail =>
      "Upload failed: " ++ jsOrStr detail (toString code)
  | ProcessError.uploadParse => "Failed to parse upload response"
  | ProcessError.missingVariantId => "Upload response missing variant ID"
  | ProcessError.timeoutAttempts maxAttempts =>
      "Processing timeout: exceeded " ++ toString maxAttempts ++ " polling attempts"
  | ProcessError.timeoutElapsed pollTimeoutMs =>
      "Processing timeout: exceeded " ++ toString pollTimeoutMs ++ "ms"
  | ProcessError.statusNetwork => "Network error during status check"
  | ProcessError.statusApi code detail =>
      "Status check failed: " ++ jsOrStr detail (toString code)
  | ProcessError.statusParse => "Failed to parse status response"
  | ProcessError.processingFailed message => "Processing failed: " ++ message
  | ProcessError.chunksNetwork => "Network error while fetching chunks"
  | ProcessError.chunksApi code detail =>
      "Failed to get chunks: " ++ jsOrStr detail (toString code)
  | ProcessError.chunksParse => "Failed to parse chunks response"
  | ProcessError.streamUploadFailed _ => "Upload failed"
  | ProcessError.rawException => "uncaught exception"

/-- The client-side chunking strategy type: the TypeScript union
`'semantic' | 'recursive'` of `ProcessingConfig.strategy`. -/
inductive Strategy where
  | semantic : Strategy
  | recursive : Strategy
  deriving Repr, DecidableEq

/-- The wire string of a strategy value. -/
def strategyStr : Strategy → String
  | Strategy.semantic => "semantic"
  | Strategy.recursive => "recursive"

/-- Options of `process` (interface `ProcessOptions`, `src/index.ts:66`):
every field is optional (`undefined` = absent). -/
structure ProcessOptions where
  wait : Option Bool := none
  pollInterval : Option Nat := none
  chunkSize : Option Int := none
  chunkOverlap : Option Int := none
  strategy : Option Strategy := none
  processImages : Option Bool := none
  extractSectionNumbers : Option Bool := none
  calculateQualityScores : Option Bool := none
  minChunkQuality : Option Int := none
  enableSmartContext : Option Bool := none
  tableExtraction : Option Bool := none
  tableContextGeneration : Option Bool := none
  storeContent : Option Bool := none
  maxPollAttempts : Option Nat := none
  pollTimeout : Option Nat := none
  parentDocumentId : Option String := none
  versionLabel : Option String := none
  autoLink : Option Bool := none
  autoLinkThreshold : Option Int := none
  deriving Repr, DecidableEq

/-- Client-side chunk metadata (interface `ChunkMetadata`,
`src/index.ts:92`), as built by the result-formatting step of `process`. -/
structure ChunkMetadata where
  id : String
  pageNumber : Option Int
  pageRange : List Int
  sectionPath : List String
  tokens : Int
  chunkIndex : Int
  metadata : JsonValue
  chunkType : Option String
  containsTable : Bool
  tableMetadata : Option JsonValue
  chunkingStrategy : Option String
  sectionNumber : Option String
  qualityScore : Option Int
  syntheticContext : Option String
  parentChunkId : Option String
  boundingBox : Option JsonValue
  dedupStrategy : Option String
  dedupConfidence : Option Int
  isReused : Bool
  totalSentences : Option Int
  reusedSentencesCount : Option Int
  newSentencesCount : Option Int
  contentReuseRatio : Option Int
  embeddingRecommendation : Option String
  recommendationConfidence : Option String
  dedupMetadata : Option JsonValue
  deriving Repr, DecidableEq

/-- The per-chunk metadata mapping of `process` (`src/index.ts:1425`):
`sectionPath` models the interface field named `section` (a Lean keyword);
it is `c.section_hierarchy || []`. -/
def toChunkMetadata (c : BackendChunk) : ChunkMetadata :=
  { id := c.id
    pageNumber := c.page_number
    pageRange := c.page_range.getD []
    sectionPath := c.section_hierarchy.getD []
    tokens := c.tokens
    chunkIndex := c.chunk_index
    metadata := c.metadata
    chunkType := c.chunk_type
    containsTable := c.contains_table
    tableMetadata := c.table_metadata
    chunkingStrategy := c.chunking_strategy
    sectionNumber := c.section_number
    qualityScore := c.quality_score
    syntheticContext := c.synthetic_context
    parentChunkId := c.parent_chunk_id
    boundingBox := c.bounding_box
    dedupStrategy := c.dedup_strategy
    dedupConfidence := c.dedup_confidence
    isReused := c.is_reused
    totalSentences := c.total_sentences
    reusedSentencesCount := c.reused_sentences_count
    newSentencesCount := c.new_sentences_count
    contentReuseRatio := c.content_reuse_ratio
    embeddingRecommendation := c.embedding_recommendation
    recommendationConfidence := c.recommendation_confidence
    dedupMetadata := c.dedup_metadata }

/-- Result of `process` (interface `ProcessResult`, `src/index.ts:244`). -/
structure ProcessResult where
  documentId : String
  variantId : String
  chunks : List String
  metadata : List ChunkMetadata
  versionId : String
  versionNumber : Int
  isNewDocument : Bool
  isNewVersion : Bool
  isNewVariant : Bool
  existingMatch : Bool
  isDuplicate : Option Bool
  canonicalDocumentId : Option String
  processingSkipped : Option Bool
  costSaved : Option Int
  deduplicationAvailable : Bool
  autoLinked : Option Bool
  autoLinkConfidence : Option Int
  autoLinkExplanation : Option (List String)
  autoLinkMethod : Option String
  parentDocumentId : Option String
  deriving Repr, DecidableEq

/-- The early-return value of `process` when `wait === false`
(`src/index.ts:1279`): the submission-time fields of the upload response
with an empty chunk list and empty metadata. -/
def noWaitResult (u : BackendUploadResult) : ProcessResult :=
  { documentId := u.document_id
    variantId := u.variant_id
    chunks := []
    metadata := []
    versionId := u.version_id
    versionNumber := u.version_number
    isNewDocument := u.is_new_document
    isNewVersion := u.is_new_version
    isNewVariant := u.is_new_variant
    existingMatch := u.existing_match
    isDuplicate := u.is_duplicate
    canonicalDocumentId := u.canonical_document_id
    processingSkipped := u.processing_skipped
    costSaved := u.cost_saved
    deduplicationAvailable := u.deduplication_available
    autoLinked := u.auto_linked
    autoLinkConfidence := u.auto_link_confidence
    autoLinkExplanation := u.auto_link_explanation
    autoLinkMethod := u.auto_link_method
    parentDocumentId := u.parent_document_id }

/-- The result-formatting step of `process` (`src/index.ts:1421`): the
submission-time fields plus the fetched chunks mapped to text and
metadata. -/
def completedResult (u : BackendUploadResult) (chunks : List BackendChunk) :
    ProcessResult :=
  { documentId := u.document_id
    variantId := u.variant_id
    chunks := chunks.map (fun c => c.text)
    metadata := chunks.map toChunkMetadata
    versionId := u.version_id
    versionNumber := u.version_number
    isNewDocument := u.is_new_document
    isNewVersion := u.is_new_version
    isNewVariant := u.is_new_variant
    existingMatch := u.existing_match
    isDuplicate := u.is_duplicate
    canonicalDocumentId := u.canonical_document_id
    processingSkipped := u.processing_skipped
    costSaved := u.cost_saved
    deduplicationAvailable := u.deduplication_available
    autoLinked := u.auto_linked
    autoLinkConfidence := u.auto_link_confidence
    autoLinkExplanation := u.auto_link_explanation
    autoLinkMethod := u.auto_link_method
    parentDocumentId := u.parent_document_id }

/-- The remote side of one `process` run: the submission response, the
response to the k-th status poll (0-based), the chunk-fetch response, and
the wall clock (`elapsed a` = `Date.now() - startTime` observed at the
wall-clock check of the iteration with attempt counter `a`). -/
structure Server where
  upload : FetchResult BackendUploadResult
  statusAt : Nat → FetchResult BackendProcessingVariant
  chunksResp : FetchResult ChunksBody
  elapsed : Nat → Nat

/-- The polling loop of `process` (`src/index.ts:1309`). Arguments after
the environment: the iteration budget (`fuel`) and the current value of the
`attempts` counter. Returns the loop's outcome — `none` when the budget is
exhausted with the loop still running, `some (Except.ok v)` for a
`completed` variant, `some (Except.error e)` for every throw — paired with
the number of status requests issued. Each iteration increments `attempts`,
checks the attempt ceiling, then the wall-clock ceiling, and only then
issues the status request; a non-terminal status (anything other than
`completed` and `failed`) sleeps and loops. -/
def pollLoop (statusAt : Nat → FetchResult BackendProcessingVariant)
    (elapsed : Nat → Nat) (maxAttempts pollTimeoutMs : Nat) :
    Nat → Nat → Option (Except ProcessError BackendProcessingVariant) × Nat
  | 0, _ => (none, 0)
  | fuel + 1, attempts =>
    let a := attempts + 1
    if a > maxAttempts then
      (some (Except.error (ProcessError.timeoutAttempts maxAttempts)), 0)
    else if elapsed a > pollTimeoutMs then
      (some (Except.error (ProcessError.timeoutElapsed pollTimeoutMs)), 0)
    else
      match statusAt attempts with
      | FetchResult.networkError => (some (Except.error ProcessError.statusNetwork), 1)
      | FetchResult.httpError code detail =>
          (some (Except.error (ProcessError.statusApi code detail)), 1)
      | FetchResult.okRaw none => (some (Except.error ProcessError.statusParse), 1)
      | FetchResult.okRaw (some v) =>
        if v.status = "completed" then
          (some (Except.ok v), 1)
        else if v.status = "failed" then
          (some (Except.error
            (ProcessError.processingFailed (jsOrStr v.error "Unknown error"))), 1)
        else
          let r := pollLoop statusAt elapsed maxAttempts pollTimeoutMs fuel a
          (r.1, r.2 + 1)

/-- The coordinator `process` (`src/index.ts:1105`), from the submission
response onwards (file reading and form construction are modelled
separately by `buildFormEntries` / `buildQueryEntries`). Returns the
outcome — `none` only if the polling budget `maxAttempts + 1` were ever
insufficient — paired with the number of status requests and the number of
chunk-fetch requests issued. `cfgMaxPollAttempts` and `cfgPollTimeout` are
the client-instance defaults; option values are combined with them by `||`
(`jsOr`), and `wait` defaults to `true` by destructuring. -/
def process (srv : Server) (cfgMaxPollAttempts cfgPollTimeout : Nat)
    (opts : ProcessOptions) :
    Option (Except ProcessError ProcessResult) × Nat × Nat :=
  match srv.upload with
  | FetchResult.networkError => (some (Except.error ProcessError.uploadNetwork), 0, 0)
  | FetchResult.httpError code detail =>
      (some (Except.error (ProcessError.uploadApi code detail)), 0, 0)
  | FetchResult.okRaw none => (some (Except.error ProcessError.uploadParse), 0, 0)
  | FetchResult.okRaw (some u) =>
    if u.variant_id = "" then
      (some (Except.error ProcessError.missingVariantId), 0, 0)
    else if opts.wait.getD true = false then
      (some (Except.ok (noWaitResult u)), 0, 0)
    else
      let maxAttempts := jsOr opts.maxPollAttempts cfgMaxPollAttempts
      let pollTimeoutMs := jsOr opts.pollTimeout cfgPollTimeout
      let polled := pollLoop srv.statusAt srv.elapsed maxAttempts pollTimeoutMs
        (maxAttempts + 1) 0
      match polled.1 with
      | none => (none, polled.2, 0)
      | some (Except.error e) => (some (Except.error e), polled.2, 0)
      | some (Except.ok _) =>
        match srv.chunksResp with
        | FetchResult.networkError =>
            (some (Except.error ProcessError.chunksNetwork), polled.2, 1)
        | FetchResult.httpError code detail =>
            (some (Except.error (ProcessError.chunksApi code detail)), polled.2, 1)
        | FetchResult.okRaw none =>
            (some (Except.error ProcessError.chunksParse), polled.2, 1)
        | FetchResult.okRaw (some body) =>
            (some (Except.ok (completedResult u (body.chunks.getD []))), polled.2, 1)

/-- One optional entry of a form body or query string: present exactly when
the option is provided, rendered by the field's `toString`. -/
def optEntry {α : Type} (key : String) (value : Option α) (render : α → String) :
    List (String × String) :=
  match value with
  | some v => [(key, render v)]
  | none => []

/-- JavaScript `Boolean.prototype.toString`. -/
def boolStr (b : Bool) : String := if b then "true" else "false"

/-- The multipart form entries that the submission step of `process`
appends for the processing configuration (`src/index.ts:1186`): one
`formData.append` per explicitly provided field, guarded by
`!== undefined` — except `strategy`, which is guarded by truthiness; under
its declared type `'semantic' | 'recursive'` every present value is truthy,
so the guard coincides with `!== undefined`. -/
def buildFormEntries (o : ProcessOptions) : List (String × String) :=
  optEntry "chunk_size" o.chunkSize (fun n => toString n) ++
  optEntry "chunk_overlap" o.chunkOverlap (fun n => toString n) ++
  optEntry "strategy" o.strategy strategyStr ++
  optEntry "process_images" o.processImages boolStr ++
  optEntry "extract_section_numbers" o.extractSectionNumbers boolStr ++
  optEntry "calculate_quality_scores" o.calculateQualityScores boolStr ++
  optEntry "min_chunk_quality" o.minChunkQuality (fun n => toString n) ++
  optEntry "enable_smart_context" o.enableSmartContext boolStr ++
  optEntry "table_extraction" o.tableExtraction boolStr ++
  optEntry "table_context_generation" o.tableContextGeneration boolStr ++
  optEntry "store_content" o.storeContent boolStr

/-- The query-string entries that the submission step of `process` appends
for version control and auto-linking (`src/index.ts:1222`), each guarded by
`!== undefined`. -/
def buildQueryEntries (o : ProcessOptions) : List (String × String) :=
  optEntry "parent_document_id" o.parentDocumentId (fun s => s) ++
  optEntry "version_label" o.versionLabel (fun s => s) ++
  optEntry "auto_link" o.autoLink boolStr ++
  optEntry "auto_link_threshold" o.autoLinkThreshold (fun n => toString n)

/-- Client-side chunk (interface `Chunk`, `src/index.ts:328`), as built by
`getChunks`. -/
structure Chunk where
  id : String
  text : String
  pageNumber : Option Int
  pageRange : List Int
  sectionHierarchy : List String
  tokens : Int
  chunkIndex : Int
  metadata : JsonValue
  chunkType : Option String
  containsTable : Bool
  tableMetadata : Option JsonValue
  chunkingStrategy : Option String
  sectionNumber : Option String
  qualityScore : Option Int
  syntheticContext : Option String
  parentChunkId : Option String
  boundingBox : Option JsonValue
  dedupStrategy : Option String
  dedupConfidence : Option Int
  isReused : Bool
  dedupSourceChunkId : Option String
  totalSentences : Option Int
  reusedSentencesCount : Option Int
  newSentencesCount : Option Int
  contentReuseRatio : Option Int
  embeddingRecommendation : Option String
  recommendationConfidence : Option String
  dedupMetadata : Option JsonValue
  deriving Repr, DecidableEq

/-- The per-chunk mapping of `getChunks` (`src/index.ts:1977`). -/
def toChunk (c : BackendChunk) : Chunk :=
  { id := c.id
    text := c.text
    pageNumber := c.page_number
    pageRange := c.page_range.getD []
    sectionHierarchy := c.section_hierarchy.getD []
    tokens := c.tokens
    chunkIndex := c.chunk_index
    metadata := c.metadata
    chunkType := c.chunk_type
    containsTable := c.contains_table
    tableMetadata := c.table_metadata
    chunkingStrategy := c.chunking_strategy
    sectionNumber := c.section_number
    qualityScore := c.quality_score
    syntheticContext := c.synthetic_context
    parentChunkId := c.parent_chunk_id
    boundingBox := c.bounding_box
    dedupStrategy := c.dedup_strategy
    dedupConfidence := c.dedup_confidence
    isReused := c.is_reused
    dedupSourceChunkId := c.dedup_source_chunk_id
    totalSentences := c.total_sentences
    reusedSentencesCount := c.reused_sentences_count
    newSentencesCount := c.new_sentences_count
    contentReuseRatio := c.content_reuse_ratio
    embeddingRecommendation := c.embedding_recommendation
    recommendationConfidence := c.recommendation_confidence
    dedupMetadata := c.dedup_metadata }

/-- The 2xx body handling of `getChunks` (`src/index.ts:1970`). The
argument is the body of a 2xx response: `none` for undecodable JSON — at
this site the source does not guard `response.json()`, so its rejection
leaks to the caller unwrapped, modelled as `none` here. On a decoded body
it returns `Array.isArray(data.chunks) ? data.chunks.map(…) : []` and
`typeof data.total === 'number' ? data.total : 0`: a missing `chunks`
array yields an empty list, not an error. -/
def getChunksFromBody (body : Option ChunksBody) : Option (List Chunk × Int) :=
  match body with
  | none => none
  | some b =>
    some
      (match b.chunks with
       | some l => l.map toChunk
       | none => [], b.total.getD 0)

/-- One progress event of `processStream` (`src/index.ts:1485`). -/
structure ProgressEvent where
  stage : String
  percent : Nat
  message : String
  variantId : Option String := none
  deriving Repr, DecidableEq

/-- The first event of `processStream`: `upload` at 0% (line 1491). -/
def uploadStartEvent : ProgressEvent :=
  { stage := "upload", percent := 0, message := "Uploading document..." }

/-- The post-submission event of `processStream`: `upload` at 100% carrying
the job handle (line 1576). -/
def uploadDoneEvent (variantId : String) : ProgressEvent :=
  { stage := "upload", percent := 100, message := "Upload complete"
    variantId := some variantId }

/-- The terminal event of `processStream`: `complete` at 100% (line 1613). -/
def completeEvent (variantId : String) : ProgressEvent :=
  { stage := "complete", percent := 100, message := "Processing complete"
    variantId := some variantId }

/-- The per-poll event of `processStream` for a non-terminal status
(line 1626): stage `processing` at the fixed 50% when the status is
`processing`, otherwise stage `queued` at the fixed 25%. -/
def pollEvent (variantId : String) (v : BackendProcessingVariant) : ProgressEvent :=
  if v.status = "processing" then
    { stage := "processing", percent := 50, message := "Document processing..."
      variantId := some variantId }
  else
    { stage := "queued", percent := 25, message := "Document queued..."
      variantId := some variantId }

/-- The polling loop of `processStream` (`src/index.ts:1589`): same ceilings
and classification as `pollLoop`, but yields one `pollEvent` per
non-terminal status and a `completeEvent` on `completed`. At this site the
source checks neither `statusResponse.ok` nor the JSON decode, so the
status responses are modelled as already-decoded variants. Returns the
events yielded by the loop and the failure it throws, if any; fuel
exhaustion returns `([], none)` and is ruled out for the budget `process`
passes (`streamLoop_fuel` below). -/
def streamLoop (statusAt : Nat → BackendProcessingVariant) (elapsed : Nat → Nat)
    (variantId : String) (maxAttempts pollTimeoutMs : Nat) :
    Nat → Nat → List ProgressEvent × Option ProcessError
  | 0, _ => ([], none)
  | fuel + 1, attempts =>
    let a := attempts + 1
    if a > maxAttempts then
      ([], some (ProcessError.timeoutAttempts maxAttempts))
    else if elapsed a > pollTimeoutMs then
      ([], some (ProcessError.timeoutElapsed pollTimeoutMs))
    else
      let v := statusAt attempts
      if v.status = "completed" then
        ([completeEvent variantId], none)
      else if v.status = "failed" then
        ([], some (ProcessError.processingFailed (jsOrStr v.error "Unknown error")))
      else
        let r := streamLoop statusAt elapsed variantId maxAttempts pollTimeoutMs fuel a
        (pollEvent variantId v :: r.1, r.2)

/-- The remote side of one `processStream` run. The status endpoint is a
decoded variant per poll because `processStream` performs no `ok` or decode
check on it (`src/index.ts:1604`). -/
structure StreamServer where
  upload : FetchResult BackendUploadResult
  statusAt : Nat → BackendProcessingVariant
  elapsed : Nat → Nat

/-- The streaming coordinator `processStream` (`src/index.ts:1482`): the
sequence of events it yields and the failure it throws, if any. The first
`upload` event precedes the upload request; a non-2xx upload response
throws `RaptorAPIError('Upload failed', …)`; an upload transport failure or
undecodable upload body is uncaught at this site (`rawException`). The
variant id is used as extracted, without the missing-id check of
`process`. -/
def processStream (srv : StreamServer) (cfgMaxPollAttempts cfgPollTimeout : Nat)
    (opts : ProcessOptions) : List ProgressEvent × Option ProcessError :=
  match srv.upload with
  | FetchResult.networkError => ([uploadStartEvent], some ProcessError.rawException)
  | FetchResult.httpError code _ =>
      ([uploadStartEvent], some (ProcessError.streamUploadFailed code))
  | FetchResult.okRaw none => ([uploadStartEvent], some ProcessError.rawException)
  | FetchResult.okRaw (some u) =>
    let maxAttempts := jsOr opts.maxPollAttempts cfgMaxPollAttempts
    let pollTimeoutMs := jsOr opts.pollTimeout cfgPollTimeout
    let r := streamLoop srv.statusAt srv.elapsed u.variant_id maxAttempts
      pollTimeoutMs (maxAttempts + 1) 0
    (uploadStartEvent :: uploadDoneEvent u.variant_id :: r.1, r.2)

/-- Client-side processing configuration (interface `ProcessingConfig`,
`src/index.ts:38`): camelCase fields, `strategy` restricted to the union
`'semantic' | 'recursive'`. -/
structure ProcessingConfig where
  chunkSize : Option Int := none
  chunkOverlap : Option Int := none
  strategy : Option Strategy := none
  processImages : Option Bool := none
  extractSectionNumbers : Option Bool := none
  calculateQualityScores : Option Bool := none
  minChunkQuality : Option Int := none
  enableSmartContext : Option Bool := none
  tableExtraction : Option Bool := none
  tableContextGeneration : Option Bool := none
  storeContent : Option Bool := none
  deriving Repr, DecidableEq

/-- Client-side embedding recommendations (nested in `dedupStats`). -/
structure EmbeddingRecommendations where
  reuse : Option Int := none
  considerReuse : Option Int := none
  regenerate : Option Int := none
  deriving Repr, DecidableEq

/-- Client-side deduplication statistics (nested in `ProcessingVariant`). -/
structure DedupStats where
  chunksCreated : Int := 0
  chunksReused : Int := 0
  totalChunks : Int := 0
  savingsPercent : Int := 0
  chunksHighReuse : Option Int := none
  chunksPartialReuse : Option Int := none
  chunksFuzzyMatched : Option Int := none
  totalSentences : Option Int := none
  reusedSentences : Option Int := none
  newSentences : Option Int := none
  sentenceReuseRatio : Option Int := none
  embeddingRecommendations : Option EmbeddingRecommendations := none
  deriving Repr, DecidableEq

/-- Client-side processing variant (interface `ProcessingVariant`,
`src/index.ts:149`). The source narrows `status` by a type assertion only
(`data.status as …`), which has no runtime effect, so it stays a string
here. -/
structure ProcessingVariant where
  id : String := ""
  versionId : String := ""
  configHash : String := ""
  config : ProcessingConfig := {}
  status : String := ""
  error : Option String := none
  chunksCount : Int := 0
  totalTokens : Int := 0
  pageCount : Option Int := none
  creditsCharged : Option Int := none
  isPrimary : Bool := false
  dedupStats : Option DedupStats := none
  retryCount : Option Int := none
  maxRetries : Option Int := none
  isRetrying : Option Bool := none
  inDlq : Option Bool := none
  createdAt : String := ""
  processedAt : Option String := none
  deriving Repr, DecidableEq

/-- The strategy narrowing of `transformVariant` (`src/index.ts:2279`):
`data.config.strategy === 'semantic' || data.config.strategy === 'recursive'
? data.config.strategy : undefined` — any other wire value becomes
`undefined`. -/
def toClientStrategy (s : Option String) : Option Strategy :=
  match s with
  | some "semantic" => some Strategy.semantic
  | some "recursive" => some Strategy.recursive
  | _ => none

/-- The embedding-recommendations branch of `transformVariant`
(`src/index.ts:2317`). -/
def toEmbeddingRecs (e : BackendEmbeddingRecommendations) : EmbeddingRecommendations :=
  { reuse := e.reuse
    considerReuse := e.consider_reuse
    regenerate := e.regenerate }

/-- The `dedup_stats` branch of `transformVariant` (`src/index.ts:2304`). -/
def toDedupStats (d : BackendDedupStats) : DedupStats :=
  { chunksCreated := d.chunks_created
    chunksReused := d.chunks_reused
    totalChunks := d.total_chunks
    savingsPercent := d.savings_percent
    chunksHighReuse := d.chunks_high_reuse
    chunksPartialReuse := d.chunks_partial_reuse
    chunksFuzzyMatched := d.chunks_fuzzy_matched
    totalSentences := d.total_sentences
    reusedSentences := d.reused_sentences
    newSentences := d.new_sentences
    sentenceReuseRatio := d.sentence_reuse_ratio
    embeddingRecommendations :=
      match d.embedding_recommendations with
      | some e => some (toEmbeddingRecs e)
      | none => none }

/-- The wire-to-client schema mapper `transformVariant`
(`src/index.ts:2269`). -/
def transformVariant (data : BackendProcessingVariant) : ProcessingVariant :=
  { id := data.id
    versionId := data.version_id
    configHash := data.config_hash
    config :=
      { chunkSize := data.config.chunk_size
        chunkOverlap := data.config.chunk_overlap
        strategy := toClientStrategy data.config.strategy
        processImages := data.config.process_images
        extractSectionNumbers := data.config.extract_section_numbers
        calculateQualityScores := data.config.calculate_quality_scores
        minChunkQuality := data.config.min_chunk_quality
        enableSmartContext := data.config.enable_smart_context
        tableExtraction := data.config.table_extraction
        tableContextGeneration := data.config.table_context_generation
        storeContent := data.config.store_content }
    status := data.status
    error := data.error
    chunksCount := data.chunks_count
    totalTokens := data.total_tokens
    pageCount := data.page_count
    creditsCharged := data.credits_charged
    isPrimary := data.is_primary
    dedupStats :=
      match data.dedup_stats with
      | some d => some (toDedupStats d)
      | none => none
    retryCount := data.retry_count
    maxRetries := data.max_retries
    isRetrying := data.is_retrying
    inDlq := data.in_dlq
    createdAt := data.created_at
    processedAt := data.processed_at }

/-- Modelled from the spec: the client-to-wire direction of the Schema
Mapper ("bidirectional conversion between the wire representation
(snake_case field names, flat nesting) and the client representation
(camelCase, nested)"). The source has no such function for processing
variants — only the wire-to-client `transformVariant` — so this direction
follows the spec's words: pure field-by-field renaming from camelCase back
to snake_case, with the client strategy union rendered as its wire
string. -/
def embeddingRecsToWire (e : EmbeddingRecommendations) : BackendEmbeddingRecommendations :=
  { reuse := e.reuse
    consider_reuse := e.considerReuse
    regenerate := e.regenerate }

/-- Modelled from the spec: client-to-wire renaming of the dedup
statistics (see `embeddingRecsToWire`). -/
def dedupStatsToWire (d : DedupStats) : BackendDedupStats :=
  { chunks_created := d.chunksCreated
    chunks_reused := d.chunksReused
    total_chunks := d.totalChunks
    savings_percent := d.savingsPercent
    chunks_high_reuse := d.chunksHighReuse
    chunks_partial_reuse := d.chunksPartialReuse
    chunks_fuzzy_matched := d.chunksFuzzyMatched
    total_sentences := d.totalSentences
    reused_sentences := d.reusedSentences
    new_sentences := d.newSentences
    sentence_reuse_ratio := d.sentenceReuseRatio
    embedding_recommendations :=
      match d.embeddingRecommendations with
      | some e => some (embeddingRecsToWire e)
      | none => none }

/-- Modelled from the spec: client-to-wire renaming of a processing
variant (see `embeddingRecsToWire`). -/
def variantToWire (v : ProcessingVariant) : BackendProcessingVariant :=
  { id := v.id
    version_id := v.versionId
    config_hash := v.configHash
    config :=
      { chunk_size := v.config.chunkSize
        chunk_overlap := v.config.chunkOverlap
        strategy :=
          match v.config.strategy with
          | some s => some (strategyStr s)
          | none => none
        process_images := v.config.processImages
        extract_section_numbers := v.config.extractSectionNumbers
        calculate_quality_scores := v.config.calculateQualityScores
        min_chunk_quality := v.config.minChunkQuality
        enable_smart_context := v.config.enableSmartContext
        table_extraction := v.config.tableExtraction
        table_context_generation := v.config.tableContextGeneration
        store_content := v.config.storeContent }
    status := v.status
    error := v.error
    chunks_count := v.chunksCount
    total_tokens := v.totalTokens
    page_count := v.pageCount
    credits_charged := v.creditsCharged
    is_primary := v.isPrimary
    dedup_stats :=
      match v.dedupStats with
      | some d => some (dedupStatsToWire d)
      | none => none
    retry_count := v.retryCount
    max_retries := v.maxRetries
    is_retrying := v.isRetrying
    in_dlq := v.inDlq
    created_at := v.createdAt
    processed_at := v.processedAt }

/-- Outcome of `new URL(baseUrl)` in the constructor, modelled as a
pre-parsed value: either the parse throws (`malformed`) or it yields a
protocol (with trailing colon, as in the URL API) and a hostname. -/
inductive ParsedUrl where
  | malformed : ParsedUrl
  | parsed (protocol : String) (hostname : String) : ParsedUrl
  deriving Repr, DecidableEq

/-- Constructor configuration (interface `RaptorConfig`, `src/index.ts:16`).
`baseUrl := none` models an omitted (or empty, hence falsy) base URL, which
falls back to `https://api.raptordata.dev`. -/
structure RaptorConfig where
  apiKey : String := ""
  baseUrl : Option ParsedUrl := none
  timeout : Option Nat := none
  maxPollAttempts : Option Nat := none
  pollTimeout : Option Nat := none
  dangerouslyAllowLocalhost : Option Bool := none
  deriving Repr, DecidableEq

/-- The validated client state the constructor stores (`this.apiKey`,
`this.baseUrl` — kept here as its parsed protocol and hostname —
`this.timeout`, `this.maxPollAttempts`, `this.pollTimeout`). -/
structure Client where
  apiKey : String
  urlProtocol : String
  urlHostname : String
  timeout : Nat
  maxPollAttempts : Nat
  pollTimeout : Nat
  deriving Repr, DecidableEq

/-- JavaScript `String.prototype.trim`, modelled character-wise (the
built-in `String.trim` is opaque to kernel reduction): whitespace is
stripped from both ends. -/
def jsTrim (s : String) : String :=
  ⟨((s.data.dropWhile Char.isWhitespace).reverse.dropWhile Char.isWhitespace).reverse⟩

/-- Character-wise `startsWith` (the built-in is opaque to kernel
reduction). -/
def strStartsWith (s p : String) : Bool :=
  p.data.isPrefixOf s.data

/-- Character-wise `drop` (the built-in is opaque to kernel reduction). -/
def strDrop (s : String) (n : Nat) : String := ⟨s.data.drop n⟩

/-- The 172.16.0.0/12 test of the constructor: the regex
`/^172\.(1[6-9]|2[0-9]|3[0-1])\./` (`src/index.ts:1006`). -/
def is172Private (hostname : String) : Bool :=
  strStartsWith hostname "172." &&
    (["16", "17", "18", "19", "20", "21", "22", "23", "24", "25", "26", "27",
      "28", "29", "30", "31"].any
      (fun p => strStartsWith (strDrop hostname 4) (p ++ ".")))

/-- The localhost / private-address classification of the constructor
(`src/index.ts:1001`): exactly `localhost`, `127.0.0.1`, `192.168.*`,
`10.*` and `172.16-31.*`. -/
def isPrivateHost (hostname : String) : Bool :=
  hostname = "localhost" || hostname = "127.0.0.1" ||
  strStartsWith hostname "192.168." || strStartsWith hostname "10." ||
  is172Private hostname

/-- The constructor of class `Raptor` (`src/index.ts:985`): configuration
validation in source order — API key, base URL (SSRF check, then protocol
check), request timeout, max poll attempts, poll timeout — producing the
stored client state or the message of the `RaptorError` it throws. The
numeric fields go through `x || default` before their range checks, so an
explicit `0` falls back to the default instead of being rejected. -/
def raptorConstructor (config : RaptorConfig) : Except String Client :=
  if config.apiKey = "" ∨ jsTrim config.apiKey = "" then
    Except.error "API key is required"
  else
    match config.baseUrl.getD (ParsedUrl.parsed "https:" "api.raptordata.dev") with
    | ParsedUrl.malformed => Except.error "Invalid base URL"
    | ParsedUrl.parsed protocol hostname =>
      if isPrivateHost hostname ∧ config.dangerouslyAllowLocalhost.getD false = false then
        Except.error "Base URL cannot point to localhost or private IP addresses"
      else if protocol ≠ "http:" ∧ protocol ≠ "https:" then
        Except.error "Base URL must use HTTP or HTTPS protocol"
      else
        let timeout := jsOr config.timeout 300000
        if timeout < 1000 ∨ timeout > 3600000 then
          Except.error "Timeout must be between 1000ms (1s) and 3600000ms (1h)"
        else
          let maxPollAttempts := jsOr config.maxPollAttempts 300
          if maxPollAttempts < 1 ∨ maxPollAttempts > 3600 then
            Except.error "Max poll attempts must be between 1 and 3600"
          else
            let pollTimeout := jsOr config.pollTimeout 300000
            if pollTimeout < 1000 ∨ pollTimeout > 3600000 then
              Except.error "Poll timeout must be between 1000ms (1s) and 3600000ms (1h)"
            else
              Except.ok
                { apiKey := config.apiKey
                  urlProtocol := protocol
                  urlHostname := hostname
                  timeout := timeout
                  maxPollAttempts := maxPollAttempts
                  pollTimeout := pollTimeout }

/-! ### Helper lemmas about the polling loops -/

theorem pollLoop_step_attempts_exceeded
    (statusAt : Nat → FetchResult BackendProcessingVariant) (elapsed : Nat → Nat)
    (A T fuel attempts : Nat) (ha : attempts + 1 > A) :
    pollLoop statusAt elapsed A T (fuel + 1) attempts =
      (some (Except.error (ProcessError.timeoutAttempts A)), 0) := by
  simp only [pollLoop]
  rw [if_pos ha]

theorem pollLoop_step_elapsed_exceeded
    (statusAt : Nat → FetchResult BackendProcessingVariant) (elapsed : Nat → Nat)
    (A T fuel attempts : Nat) (ha : ¬ attempts + 1 > A)
    (he : elapsed (attempts + 1) > T) :
    pollLoop statusAt elapsed A T (fuel + 1) attempts =
      (some (Except.error (ProcessError.timeoutElapsed T)), 0) := by
  simp only [pollLoop]
  rw [if_neg ha, if_pos he]

theorem pollLoop_step_completed
    (statusAt : Nat → FetchResult BackendProcessingVariant) (elapsed : Nat → Nat)
    (A T fuel attempts : Nat) (v : BackendProcessingVariant)
    (hs : statusAt attempts = FetchResult.okRaw (some v))
    (hv : v.status = "completed")
    (ha : attempts + 1 ≤ A) (he : elapsed (attempts + 1) ≤ T) :
    pollLoop statusAt elapsed A T (fuel + 1) attempts = (some (Except.ok v), 1) := by
  simp only [pollLoop]
  rw [if_neg (by omega), if_neg (by omega), hs]
  simp [hv]

theorem pollLoop_step_failed
    (statusAt : Nat → FetchResult BackendProcessingVariant) (elapsed : Nat → Nat)
    (A T fuel attempts : Nat) (v : BackendProcessingVariant)
    (hs : statusAt attempts = FetchResult.okRaw (some v))
    (hv : v.status = "failed")
    (ha : attempts + 1 ≤ A) (he : elapsed (attempts + 1) ≤ T) :
    pollLoop statusAt elapsed A T (fuel + 1) attempts =
      (some (Except.error
        (ProcessError.processingFailed (jsOrStr v.error "Unknown error"))), 1) := by
  simp only [pollLoop]
  rw [if_neg (by omega), if_neg (by omega), hs]
  simp [hv]

theorem pollLoop_step_nonterminal
    (statusAt : Nat → FetchResult BackendProcessingVariant) (elapsed : Nat → Nat)
    (A T fuel attempts : Nat) (v : BackendProcessingVariant)
    (hs : statusAt attempts = FetchResult.okRaw (some v))
    (hnc : v.status ≠ "completed") (hnf : v.status ≠ "failed")
    (ha : attempts + 1 ≤ A) (he : elapsed (attempts + 1) ≤ T) :
    pollLoop statusAt elapsed A T (fuel + 1) attempts =
      ((pollLoop statusAt elapsed A T fuel (attempts + 1)).1,
       (pollLoop statusAt elapsed A T fuel (attempts + 1)).2 + 1) := by
  simp only [pollLoop]
  rw [if_neg (by omega), if_neg (by omega), hs]
  simp [hnc, hnf]

/-- Running `k` consecutive non-terminal polls advances the loop by `k`
iterations and adds `k` status requests. -/
theorem pollLoop_run
    (statusAt : Nat → FetchResult BackendProcessingVariant) (elapsed : Nat → Nat)
    (A T : Nat) (k : Nat) :
    ∀ fuel attempts, k ≤ fuel →
      (∀ j, j < k → ∃ v, statusAt (attempts + j) = FetchResult.okRaw (some v) ∧
        v.status ≠ "completed" ∧ v.status ≠ "failed") →
      (∀ j, j < k → elapsed (attempts + j + 1) ≤ T) →
      attempts + k ≤ A →
      pollLoop statusAt elapsed A T fuel attempts =
        ((pollLoop statusAt elapsed A T (fuel - k) (attempts + k)).1,
         (pollLoop statusAt elapsed A T (fuel - k) (attempts + k)).2 + k) := by
  induction k with
  | zero => intro fuel attempts _ _ _ _; simp
  | succ k ih =>
    intro fuel attempts hfuel hst he hA
    obtain ⟨fuel, rfl⟩ : ∃ f, fuel = f + 1 := ⟨fuel - 1, by omega⟩
    obtain ⟨v, hv, hnc, hnf⟩ := hst 0 (by omega)
    rw [pollLoop_step_nonterminal statusAt elapsed A T fuel attempts v
      (by simpa using hv) hnc hnf (by omega) (by simpa using he 0 (by omega))]
    rw [ih fuel (attempts + 1) (by omega)
      (fun j hj => by
        have h := hst (j + 1) (by omega)
        rwa [show attempts + (j + 1) = attempts + 1 + j by omega] at h)
      (fun j hj => by
        have h := he (j + 1) (by omega)
        rwa [show attempts + (j + 1) + 1 = attempts + 1 + j + 1 by omega] at h)
      (by omega)]
    rw [show attempts + 1 + k = attempts + (k + 1) by omega]
    simp [Nat.succ_sub_succ, Nat.add_assoc]

/-- With statuses that never turn terminal, the loop always exits with one
of the two timeout errors, given any budget covering the remaining
attempts. -/
theorem pollLoop_timeout_of_nonterminal
    (statusAt : Nat → FetchResult BackendProcessingVariant) (elapsed : Nat → Nat)
    (A T : Nat)
    (hs : ∀ j, ∃ v, statusAt j = FetchResult.okRaw (some v) ∧
      v.status ≠ "completed" ∧ v.status ≠ "failed") :
    ∀ fuel attempts, 1 ≤ fuel → A + 1 ≤ attempts + fuel →
      ∃ e n, pollLoop statusAt elapsed A T fuel attempts =
          (some (Except.error e), n) ∧
        (e = ProcessError.timeoutAttempts A ∨ e = ProcessError.timeoutElapsed T) := by
  intro fuel
  induction fuel with
  | zero => intro attempts h; omega
  | succ fuel ih =>
    intro attempts _ hbound
    by_cases h1 : attempts + 1 > A
    · exact ⟨ProcessError.timeoutAttempts A, 0,
        pollLoop_step_attempts_exceeded statusAt elapsed A T fuel attempts h1,
        Or.inl rfl⟩
    · by_cases h2 : elapsed (attempts + 1) > T
      · exact ⟨ProcessError.timeoutElapsed T, 0,
          pollLoop_step_elapsed_exceeded statusAt elapsed A T fuel attempts h1 h2,
          Or.inr rfl⟩
      · obtain ⟨v, hv, hnc, hnf⟩ := hs attempts
        obtain ⟨e, n, hres, hcase⟩ := ih (attempts + 1) (by omega) (by omega)
        refine ⟨e, n + 1, ?_, hcase⟩
        rw [pollLoop_step_nonterminal statusAt elapsed A T fuel attempts v hv hnc hnf
          (by omega) (by omega), hres]

theorem streamLoop_step_completed
    (statusAt : Nat → BackendProcessingVariant) (elapsed : Nat → Nat)
    (vid : String) (A T fuel attempts : Nat)
    (hv : (statusAt attempts).status = "completed")
    (ha : attempts + 1 ≤ A) (he : elapsed (attempts + 1) ≤ T) :
    streamLoop statusAt elapsed vid A T (fuel + 1) attempts =
      ([completeEvent vid], none) := by
  simp only [streamLoop]
  rw [if_neg (by omega), if_neg (by omega)]
  simp [hv]

theorem streamLoop_step_nonterminal
    (statusAt : Nat → BackendProcessingVariant) (elapsed : Nat → Nat)
    (vid : String) (A T fuel attempts : Nat)
    (hnc : (statusAt attempts).status ≠ "completed")
    (hnf : (statusAt attempts).status ≠ "failed")
    (ha : attempts + 1 ≤ A) (he : elapsed (attempts + 1) ≤ T) :
    streamLoop statusAt elapsed vid A T (fuel + 1) attempts =
      (pollEvent vid (statusAt attempts) ::
        (streamLoop statusAt elapsed vid A T fuel (attempts + 1)).1,
       (streamLoop statusAt elapsed vid A T fuel (attempts + 1)).2) := by
  simp only [streamLoop]
  rw [if_neg (by omega), if_neg (by omega)]
  simp [hnc, hnf]

/-- Running `k` consecutive non-terminal polls of the streaming loop yields
one `pollEvent` per poll, in order. -/
theorem streamLoop_run
    (statusAt : Nat → BackendProcessingVariant) (elapsed : Nat → Nat)
    (vid : String) (A T : Nat) (k : Nat) :
    ∀ fuel attempts, k ≤ fuel →
      (∀ j, j < k → (statusAt (attempts + j)).status ≠ "completed" ∧
        (statusAt (attempts + j)).status ≠ "failed") →
      (∀ j, j < k → elapsed (attempts + j + 1) ≤ T) →
      attempts + k ≤ A →
      streamLoop statusAt elapsed vid A T fuel attempts =
        ((List.range k).map (fun j => pollEvent vid (statusAt (attempts + j))) ++
          (streamLoop statusAt elapsed vid A T (fuel - k) (attempts + k)).1,
         (streamLoop statusAt elapsed vid A T (fuel - k) (attempts + k)).2) := by
  induction k with
  | zero => intro fuel attempts _ _ _ _; simp
  | succ k ih =>
    intro fuel attempts hfuel hst he hA
    obtain ⟨fuel, rfl⟩ : ∃ f, fuel = f + 1 := ⟨fuel - 1, by omega⟩
    obtain ⟨hnc, hnf⟩ := hst 0 (by omega)
    rw [streamLoop_step_nonterminal statusAt elapsed vid A T fuel attempts
      (by simpa using hnc) (by simpa using hnf) (by omega)
      (by simpa using he 0 (by omega))]
    rw [ih fuel (attempts + 1) (by omega)
      (fun j hj => by
        have h := hst (j + 1) (by omega)
        rwa [show attempts + (j + 1) = attempts + 1 + j by omega] at h)
      (fun j hj => by
        have h := he (j + 1) (by omega)
        rwa [show attempts + (j + 1) + 1 = attempts + 1 + j + 1 by omega] at h)
      (by omega)]
    have hmap : (List.range k).map (fun j => pollEvent vid (statusAt (attempts + 1 + j))) =
        (List.range k).map ((fun j => pollEvent vid (statusAt (attempts + j))) ∘ Nat.succ) :=
      List.map_congr_left (fun j _ => by
        simp only [Function.comp_apply]
        rw [show attempts + 1 + j = attempts + (j + 1) by omega])
    simp only [List.range_succ_eq_map, List.map_cons, List.map_map, List.cons_append,
      Nat.succ_sub_succ, Nat.add_zero]
    rw [hmap, show attempts + 1 + k = attempts + (k + 1) by omega]

/-! ### Concrete fixtures used by the witnesses -/

/-- A successful upload response fixture. -/
def uploadW : BackendUploadResult :=
  { variant_id := "variant-1", document_id := "doc-1", version_id := "ver-1",
    is_duplicate := some false, auto_linked := some true }

/-- A variant fixture in each processing state. -/
def pendingW : BackendProcessingVariant := { status := "pending" }

def processingW : BackendProcessingVariant := { status := "processing" }

def completedW : BackendProcessingVariant := { status := "completed" }

def failedW : BackendProcessingVariant := { status := "failed", error := some "boom" }

def chunkW1 : BackendChunk := { id := "c1", text := "alpha" }

def chunkW2 : BackendChunk := { id := "c2", text := "beta" }

/-- Server fixture for the no-wait witness. -/
def srvNoWait : Server :=
  { upload := FetchResult.okRaw (some uploadW)
    statusAt := fun _ => FetchResult.okRaw none
    chunksResp := FetchResult.okRaw none
    elapsed := fun _ => 0 }

/-- Server fixture whose status never leaves `processing`. -/
def srvProcessing : Server :=
  { upload := FetchResult.okRaw (some uploadW)
    statusAt := fun _ => FetchResult.okRaw (some processingW)
    chunksResp := FetchResult.okRaw none
    elapsed := fun _ => 0 }

/-- Server fixture for the status sequence `[pending, failed]`. -/
def srvPendingFailed : Server :=
  { upload := FetchResult.okRaw (some uploadW)
    statusAt := fun n =>
      if n = 0 then FetchResult.okRaw (some pendingW)
      else FetchResult.okRaw (some failedW)
    chunksResp := FetchResult.okRaw none
    elapsed := fun _ => 0 }

/-- Server fixture for the status sequence `[pending, processing, completed]`
with a two-chunk payload. -/
def srvThree : Server :=
  { upload := FetchResult.okRaw (some uploadW)
    statusAt := fun n =>
      if n = 0 then FetchResult.okRaw (some pendingW)
      else if n = 1 then FetchResult.okRaw (some processingW)
      else FetchResult.okRaw (some completedW)
    chunksResp := FetchResult.okRaw (some { chunks := some [chunkW1, chunkW2], total := some 2 })
    elapsed := fun _ => 0 }

/-! ### Claim theorems -/

/-- C1: with `wait === false`, `process` returns immediately after a
successful submission with a partial result — the job handle (`variantId`)
and the submission-time flags reported by the server, an empty chunk
sequence and empty metadata — and issues zero status-poll and zero
chunk-fetch requests. All submission-time fields are copied from the
upload response by `noWaitResult`; the conjuncts spell out the handle, the
emptiness, and representative flags. -/
theorem process_no_wait
    (srv : Server) (cA cT : Nat) (opts : ProcessOptions) (u : BackendUploadResult)
    (hup : srv.upload = FetchResult.okRaw (some u))
    (hvid : u.variant_id ≠ "")
    (hwait : opts.wait = some false) :
    process srv cA cT opts = (some (Except.ok (noWaitResult u)), 0, 0) ∧
      (noWaitResult u).chunks = [] ∧
      (noWaitResult u).metadata = [] ∧
      (noWaitResult u).variantId = u.variant_id ∧
      (noWaitResult u).documentId = u.document_id ∧
      (noWaitResult u).isDuplicate = u.is_duplicate ∧
      (noWaitResult u).existingMatch = u.existing_match ∧
      (noWaitResult u).autoLinked = u.auto_linked := by
  refine ⟨?_, rfl, rfl, rfl, rfl, rfl, rfl, rfl⟩
  simp only [process, hup]
  rw [if_neg hvid, if_pos (by simp [hwait])]

theorem process_no_wait_witness :
    process srvNoWait 300 300000 { wait := some false } =
      (some (Except.ok (noWaitResult uploadW)), 0, 0) ∧
      (noWaitResult uploadW).chunks = [] ∧
      (noWaitResult uploadW).metadata = [] ∧
      (noWaitResult uploadW).variantId = uploadW.variant_id ∧
      (noWaitResult uploadW).documentId = uploadW.document_id ∧
      (noWaitResult uploadW).isDuplicate = uploadW.is_duplicate ∧
      (noWaitResult uploadW).existingMatch = uploadW.existing_match ∧
      (noWaitResult uploadW).autoLinked = uploadW.auto_linked :=
  process_no_wait srvNoWait 300 300000 { wait := some false } uploadW rfl
    (by decide) rfl

/-- C2: for any status sequence that never reaches a terminal state (every
poll returns `pending` or `processing`), the polling loop of `process`
exits — with one of the two timeout errors — within
`max(maxPollAttempts, ceil(pollTimeoutMs / pollInterval)) + 1` iterations:
that expression, as the loop's iteration budget (`fuel`), is always enough
for the loop to reach its exit, whatever the wall clock does. -/
theorem pollLoop_terminates_within_bound
    (statusAt : Nat → FetchResult BackendProcessingVariant) (elapsed : Nat → Nat)
    (A T d : Nat)
    (hs : ∀ j, ∃ v, statusAt j = FetchResult.okRaw (some v) ∧
      (v.status = "pending" ∨ v.status = "processing")) :
    ∃ e n, pollLoop statusAt elapsed A T (Nat.max A ((T + d - 1) / d) + 1) 0 =
        (some (Except.error e), n) ∧
      (e = ProcessError.timeoutAttempts A ∨ e = ProcessError.timeoutElapsed T) := by
  refine pollLoop_timeout_of_nonterminal statusAt elapsed A T ?_ _ 0 (by omega) ?_
  · intro j
    obtain ⟨v, hv, hp⟩ := hs j
    refine ⟨v, hv, ?_, ?_⟩ <;> rcases hp with h | h <;> rw [h] <;> decide
  · have h1 : A ≤ Nat.max A ((T + d - 1) / d) := Nat.le_max_left _ _
    omega

theorem pollLoop_terminates_within_bound_witness :
    ∃ e n, pollLoop (fun _ => FetchResult.okRaw (some processingW)) (fun _ => 0)
        1 1000 (Nat.max 1 ((1000 + 1000 - 1) / 1000) + 1) 0 =
        (some (Except.error e), n) ∧
      (e = ProcessError.timeoutAttempts 1 ∨ e = ProcessError.timeoutElapsed 1000) :=
  pollLoop_terminates_within_bound (fun _ => FetchResult.okRaw (some processingW))
    (fun _ => 0) 1 1000 1000 (fun _ => ⟨processingW, rfl, Or.inr rfl⟩)

/-- C5: with effective `maxPollAttempts = A` and statuses that never leave
`processing` (and a wall clock within the `pollTimeout` ceiling, so that
the attempt ceiling is the one reached), `process` exits with the
attempt-count timeout error — the `timeoutAttempts` constructor names the
ceiling that triggered — after exactly `A` status requests and no
chunk-fetch request. Both ceilings are checked at the top of every
iteration, before the status request (see `pollLoop`). -/
theorem process_timeout_attempts
    (srv : Server) (cA cT : Nat) (opts : ProcessOptions) (u : BackendUploadResult)
    (A T : Nat)
    (hup : srv.upload = FetchResult.okRaw (some u))
    (hvid : u.variant_id ≠ "")
    (hwait : opts.wait.getD true = true)
    (hA : jsOr opts.maxPollAttempts cA = A)
    (hT : jsOr opts.pollTimeout cT = T)
    (hs : ∀ j, ∃ v, srv.statusAt j = FetchResult.okRaw (some v) ∧
      v.status = "processing")
    (he : ∀ j, 1 ≤ j → j ≤ A → srv.elapsed j ≤ T) :
    process srv cA cT opts =
      (some (Except.error (ProcessError.timeoutAttempts A)), A, 0) := by
  simp only [process, hup]
  rw [if_neg hvid, if_neg (by simp [hwait])]
  simp only [hA, hT]
  have hrun := pollLoop_run srv.statusAt srv.elapsed A T A (A + 1) 0 (by omega)
    (fun j hj => by
      obtain ⟨v, hvj, hstat⟩ := hs (0 + j)
      exact ⟨v, hvj, by rw [hstat]; decide, by rw [hstat]; decide⟩)
    (fun j hj => by simpa using he (j + 1) (by omega) (by omega))
    (by omega)
  rw [hrun, show A + 1 - A = 0 + 1 by omega,
    pollLoop_step_attempts_exceeded srv.statusAt srv.elapsed A T 0 (0 + A) (by omega)]
  simp

theorem process_timeout_attempts_witness :
    process srvProcessing 300 300000 { maxPollAttempts := some 2 } =
      (some (Except.error (ProcessError.timeoutAttempts 2)), 2, 0) :=
  process_timeout_attempts srvProcessing 300 300000 { maxPollAttempts := some 2 }
    uploadW 2 300000 rfl (by decide) rfl rfl rfl
    (fun _ => ⟨processingW, rfl, rfl⟩) (fun _ _ _ => Nat.zero_le _)

/-- C4: when the polls return non-terminal statuses (`pending` or
`processing`, which never raise) up to index `k` and the poll at index `k`
returns `failed`, `process` exits with `processingFailed` carrying the
server-reported error string through `variant.error || 'Unknown error'`
(the generic message stands in when the server string is absent or empty),
after `k + 1` status requests and zero chunk-fetch requests. -/
theorem process_failed_status
    (srv : Server) (cA cT : Nat) (opts : ProcessOptions) (u : BackendUploadResult)
    (k : Nat) (v : BackendProcessingVariant) (A T : Nat)
    (hup : srv.upload = FetchResult.okRaw (some u))
    (hvid : u.variant_id ≠ "")
    (hwait : opts.wait.getD true = true)
    (hA : jsOr opts.maxPollAttempts cA = A)
    (hT : jsOr opts.pollTimeout cT = T)
    (hpre : ∀ j, j < k → ∃ p, srv.statusAt j = FetchResult.okRaw (some p) ∧
      (p.status = "pending" ∨ p.status = "processing"))
    (hk : srv.statusAt k = FetchResult.okRaw (some v))
    (hv : v.status = "failed")
    (hbound : k + 1 ≤ A)
    (he : ∀ j, 1 ≤ j → j ≤ k + 1 → srv.elapsed j ≤ T) :
    process srv cA cT opts =
      (some (Except.error
        (ProcessError.processingFailed (jsOrStr v.error "Unknown error"))),
       k + 1, 0) := by
  simp only [process, hup]
  rw [if_neg hvid, if_neg (by simp [hwait])]
  simp only [hA, hT]
  have hrun := pollLoop_run srv.statusAt srv.elapsed A T k (A + 1) 0 (by omega)
    (fun j hj => by
      obtain ⟨p, hpj, hstat⟩ := hpre (0 + j) (by omega)
      exact ⟨p, hpj, by rcases hstat with h | h <;> rw [h] <;> decide,
        by rcases hstat with h | h <;> rw [h] <;> decide⟩)
    (fun j hj => by simpa using he (j + 1) (by omega) (by omega))
    (by omega)
  rw [hrun, show A + 1 - k = (A - k) + 1 by omega,
    pollLoop_step_failed srv.statusAt srv.elapsed A T (A - k) (0 + k) v
      (by simpa using hk) hv (by omega)
      (by simpa using he (k + 1) (by omega) (by omega))]
  simp [Nat.add_comm]

theorem process_failed_status_witness :
    process srvPendingFailed 300 300000 {} =
      (some (Except.error (ProcessError.processingFailed "boom")), 2, 0) :=
  process_failed_status srvPendingFailed 300 300000 {} uploadW 1 failedW 300 300000
    rfl (by decide) rfl rfl rfl
    (fun j hj => by
      obtain rfl : j = 0 := by omega
      exact ⟨pendingW, rfl, Or.inl rfl⟩)
    rfl rfl (by omega) (fun _ _ _ => Nat.zero_le _)

/-- C3: for the status sequence `[pending, processing, completed]` with
`wait` enabled, `process` issues exactly 3 status requests and exactly 1
chunk-fetch request and returns the combined result whose `chunks` and
`metadata` arrays each have one element per chunk of the fetched
payload. -/
theorem process_three_polls_completed
    (srv : Server) (cA cT : Nat) (opts : ProcessOptions) (u : BackendUploadResult)
    (p0 p1 v : BackendProcessingVariant) (cs : List BackendChunk) (t : Int)
    (A T : Nat)
    (hup : srv.upload = FetchResult.okRaw (some u))
    (hvid : u.variant_id ≠ "")
    (hwait : opts.wait.getD true = true)
    (hA : jsOr opts.maxPollAttempts cA = A)
    (hT : jsOr opts.pollTimeout cT = T)
    (h0 : srv.statusAt 0 = FetchResult.okRaw (some p0)) (hp0 : p0.status = "pending")
    (h1 : srv.statusAt 1 = FetchResult.okRaw (some p1)) (hp1 : p1.status = "processing")
    (h2 : srv.statusAt 2 = FetchResult.okRaw (some v)) (hv : v.status = "completed")
    (hbound : 3 ≤ A)
    (he : ∀ j, 1 ≤ j → j ≤ 3 → srv.elapsed j ≤ T)
    (hc : srv.chunksResp =
      FetchResult.okRaw (some { chunks := some cs, total := some t })) :
    process srv cA cT opts = (some (Except.ok (completedResult u cs)), 3, 1) ∧
      (completedResult u cs).chunks.length = cs.length ∧
      (completedResult u cs).metadata.length = cs.length := by
  refine ⟨?_, by simp [completedResult], by simp [completedResult]⟩
  simp only [process, hup]
  rw [if_neg hvid, if_neg (by simp [hwait])]
  simp only [hA, hT]
  have hrun := pollLoop_run srv.statusAt srv.elapsed A T 2 (A + 1) 0 (by omega)
    (fun j hj => by
      interval_cases j
      · exact ⟨p0, by simpa using h0, by rw [hp0]; decide, by rw [hp0]; decide⟩
      · exact ⟨p1, by simpa using h1, by rw [hp1]; decide, by rw [hp1]; decide⟩)
    (fun j hj => by simpa using he (j + 1) (by omega) (by omega))
    (by omega)
  rw [hrun, show A + 1 - 2 = (A - 2) + 1 by omega,
    pollLoop_step_completed srv.statusAt srv.elapsed A T (A - 2) (0 + 2) v
      (by simpa using h2) hv (by omega)
      (by simpa using he 3 (by omega) (by omega))]
  rw [hc]
  simp

theorem process_three_polls_completed_witness :
    process srvThree 300 300000 {} =
        (some (Except.ok (completedResult uploadW [chunkW1, chunkW2])), 3, 1) ∧
      (completedResult uploadW [chunkW1, chunkW2]).chunks.length = 2 ∧
      (completedResult uploadW [chunkW1, chunkW2]).metadata.length = 2 :=
  process_three_polls_completed srvThree 300 300000 {} uploadW
    pendingW processingW completedW [chunkW1, chunkW2] 2 300 300000
    rfl (by decide) rfl rfl rfl
    rfl rfl rfl rfl rfl rfl (by omega) (fun _ _ _ => Nat.zero_le _) rfl

/-- Stream server fixture for the status sequence `[processing, completed]`. -/
def srvStream : StreamServer :=
  { upload := FetchResult.okRaw (some uploadW)
    statusAt := fun n => if n = 0 then processingW else completedW
    elapsed := fun _ => 0 }

/-- C6: after a successful submission whose polls return `k` non-terminal
statuses followed by `completed`, `processStream` yields exactly one
`upload` event at 0%, then exactly one `upload` event at 100% carrying the
job handle, then one event per non-terminal poll (`processing` at the
fixed 50%, otherwise `queued` at the fixed 25% — see `pollEvent`), and
ends with exactly one `complete` event at 100%; nothing else is yielded
and no failure is thrown. For `k = 1` with a `processing` status this is
the sequence upload@0%, upload@100%, processing@50%, complete@100%, in
order with no event repeated. -/
theorem processStream_event_sequence
    (srv : StreamServer) (cA cT : Nat) (opts : ProcessOptions)
    (u : BackendUploadResult) (k A T : Nat)
    (hup : srv.upload = FetchResult.okRaw (some u))
    (hA : jsOr opts.maxPollAttempts cA = A)
    (hT : jsOr opts.pollTimeout cT = T)
    (hpre : ∀ j, j < k → (srv.statusAt j).status = "pending" ∨
      (srv.statusAt j).status = "processing")
    (hk : (srv.statusAt k).status = "completed")
    (hbound : k + 1 ≤ A)
    (he : ∀ j, 1 ≤ j → j ≤ k + 1 → srv.elapsed j ≤ T) :
    processStream srv cA cT opts =
      (uploadStartEvent :: uploadDoneEvent u.variant_id ::
        ((List.range k).map (fun j => pollEvent u.variant_id (srv.statusAt j)) ++
          [completeEvent u.variant_id]), none) := by
  simp only [processStream, hup]
  simp only [hA, hT]
  have hrun := streamLoop_run srv.statusAt srv.elapsed u.variant_id A T k (A + 1) 0
    (by omega)
    (fun j hj => by
      rcases hpre (0 + j) (by omega) with h | h <;>
        exact ⟨by rw [h]; decide, by rw [h]; decide⟩)
    (fun j hj => by simpa using he (j + 1) (by omega) (by omega))
    (by omega)
  rw [hrun, show A + 1 - k = (A - k) + 1 by omega,
    streamLoop_step_completed srv.statusAt srv.elapsed u.variant_id A T (A - k) (0 + k)
      (by simpa using hk) (by omega)
      (by simpa using he (k + 1) (by omega) (by omega))]
  simp

theorem processStream_event_sequence_witness :
    processStream srvStream 300 300000 {} =
      ([uploadStartEvent, uploadDoneEvent "variant-1",
        pollEvent "variant-1" processingW, completeEvent "variant-1"], none) :=
  processStream_event_sequence srvStream 300 300000 {} uploadW 1 300 300000
    rfl rfl rfl
    (fun j hj => by
      obtain rfl : j = 0 := by omega
      exact Or.inr rfl)
    rfl (by omega) (fun _ _ _ => Nat.zero_le _)

theorem lookup_optEntry_self {α : Type} (key : String) (v : Option α)
    (render : α → String) (rest : List (String × String)) :
    ((optEntry key v render ++ rest).lookup key) =
      match v with
      | some x => some (render x)
      | none => rest.lookup key := by
  cases v <;> simp [optEntry, List.lookup]

theorem lookup_optEntry_other {α : Type} (key key2 : String)
    (h : (key == key2) = false) (v : Option α) (render : α → String)
    (rest : List (String × String)) :
    ((optEntry key2 v render ++ rest).lookup key) = rest.lookup key := by
  cases v <;> simp [optEntry, List.lookup, h]

theorem lookup_optEntry_last {α : Type} (key : String) (v : Option α)
    (render : α → String) :
    ((optEntry key v render).lookup key) = v.map render := by
  cases v <;> simp [optEntry, List.lookup]

theorem lookup_optEntry_last_other {α : Type} (key key2 : String)
    (h : (key == key2) = false) (v : Option α) (render : α → String) :
    ((optEntry key2 v render).lookup key) = none := by
  cases v <;> simp [optEntry, List.lookup, h]

/-- C7: the submission step transmits exactly the explicitly provided
configuration fields — each present field appears in the constructed form
body (or query string) with its own rendered value, falsy values such as
`0`, `false` and `""` included, and each absent (`undefined`) field is
omitted; no provided value is replaced by a default. Stated as: looking up
each field's wire key in the constructed entries yields exactly the
provided value mapped through its rendering. -/
theorem submission_transmits_exactly_provided (o : ProcessOptions) :
    (buildFormEntries o).lookup "chunk_size" = o.chunkSize.map (fun n => toString n) ∧
    (buildFormEntries o).lookup "chunk_overlap" = o.chunkOverlap.map (fun n => toString n) ∧
    (buildFormEntries o).lookup "strategy" = o.strategy.map strategyStr ∧
    (buildFormEntries o).lookup "process_images" = o.processImages.map boolStr ∧
    (buildFormEntries o).lookup "extract_section_numbers" =
      o.extractSectionNumbers.map boolStr ∧
    (buildFormEntries o).lookup "calculate_quality_scores" =
      o.calculateQualityScores.map boolStr ∧
    (buildFormEntries o).lookup "min_chunk_quality" =
      o.minChunkQuality.map (fun n => toString n) ∧
    (buildFormEntries o).lookup "enable_smart_context" =
      o.enableSmartContext.map boolStr ∧
    (buildFormEntries o).lookup "table_extraction" = o.tableExtraction.map boolStr ∧
    (buildFormEntries o).lookup "table_context_generation" =
      o.tableContextGeneration.map boolStr ∧
    (buildFormEntries o).lookup "store_content" = o.storeContent.map boolStr ∧
    (buildQueryEntries o).lookup "parent_document_id" =
      o.parentDocumentId.map (fun s => s) ∧
    (buildQueryEntries o).lookup "version_label" = o.versionLabel.map (fun s => s) ∧
    (buildQueryEntries o).lookup "auto_link" = o.autoLink.map boolStr ∧
    (buildQueryEntries o).lookup "auto_link_threshold" =
      o.autoLinkThreshold.map (fun n => toString n) := by
  obtain ⟨w, pi, cs, co, st, pim, esn, cqs, mcq, esc, te, tcg, sc, mpa, pt, pdi, vl,
    al, alt⟩ := o
  refine ⟨?_, ?_, ?_, ?_, ?_, ?_, ?_, ?_, ?_, ?_, ?_, ?_, ?_, ?_, ?_⟩ <;>
    simp only [buildFormEntries, buildQueryEntries]
  · cases cs <;> simp [lookup_optEntry_self, lookup_optEntry_other,
      lookup_optEntry_last, lookup_optEntry_last_other]
  · cases co <;> simp [lookup_optEntry_self, lookup_optEntry_other,
      lookup_optEntry_last, lookup_optEntry_last_other]
  · cases st <;> simp [lookup_optEntry_self, lookup_optEntry_other,
      lookup_optEntry_last, lookup_optEntry_last_other]
  · cases pim <;> simp [lookup_optEntry_self, lookup_optEntry_other,
      lookup_optEntry_last, lookup_optEntry_last_other]
  · cases esn <;> simp [lookup_optEntry_self, lookup_optEntry_other,
      lookup_optEntry_last, lookup_optEntry_last_other]
  · cases cqs <;> simp [lookup_optEntry_self, lookup_optEntry_other,
      lookup_optEntry_last, lookup_optEntry_last_other]
  · cases mcq <;> simp [lookup_optEntry_self, lookup_optEntry_other,
      lookup_optEntry_last, lookup_optEntry_last_other]
  · cases esc <;> simp [lookup_optEntry_self, lookup_optEntry_other,
      lookup_optEntry_last, lookup_optEntry_last_other]
  · cases te <;> simp [lookup_optEntry_self, lookup_optEntry_other,
      lookup_optEntry_last, lookup_optEntry_last_other]
  · cases tcg <;> simp [lookup_optEntry_self, lookup_optEntry_other,
      lookup_optEntry_last, lookup_optEntry_last_other]
  · cases sc <;> simp [lookup_optEntry_self, lookup_optEntry_other,
      lookup_optEntry_last, lookup_optEntry_last_other]
  · cases pdi <;> simp [lookup_optEntry_self, lookup_optEntry_other,
      lookup_optEntry_last, lookup_optEntry_last_other]
  · cases vl <;> simp [lookup_optEntry_self, lookup_optEntry_other,
      lookup_optEntry_last, lookup_optEntry_last_other]
  · cases al <;> simp [lookup_optEntry_self, lookup_optEntry_other,
      lookup_optEntry_last, lookup_optEntry_last_other]
  · cases alt <;> simp [lookup_optEntry_self, lookup_optEntry_other,
      lookup_optEntry_last, lookup_optEntry_last_other]

theorem embeddingRecs_roundtrip (e : BackendEmbeddingRecommendations) :
    embeddingRecsToWire (toEmbeddingRecs e) = e := rfl

theorem dedupStats_roundtrip (d : BackendDedupStats) :
    dedupStatsToWire (toDedupStats d) = d := by
  obtain ⟨c1, c2, c3, c4, c5, c6, c7, c8, c9, c10, c11, er⟩ := d
  cases er <;> rfl

/-- A wire variant whose configuration carries the strategy value
`"fixed"`, which the client type union does not admit. -/
def fixedStrategyVariant : BackendProcessingVariant :=
  { config := { strategy := some "fixed" } }

/-- C8 counterexample: mapping a wire variant through the Schema Mapper
and back does not preserve every field — `transformVariant` collapses any
`config.strategy` other than `"semantic"` / `"recursive"` to `undefined`,
so the wire value `"fixed"` is lost on the round trip. -/
theorem transformVariant_roundtrip_counterexample :
    variantToWire (transformVariant fixedStrategyVariant) ≠ fixedStrategyVariant := by
  decide

/-- C8 (amended): the wire-to-client-to-wire round trip preserves every
field — required and optional, nested `dedup_stats` and
`embedding_recommendations` included — whenever `config.strategy` is
absent or one of the two client-supported values `"semantic"` /
`"recursive"`; the client-to-wire direction is modelled from the spec
(`variantToWire`), the source providing only `transformVariant`. -/
theorem transformVariant_roundtrip
    (w : BackendProcessingVariant)
    (h : w.config.strategy = none ∨ w.config.strategy = some "semantic" ∨
      w.config.strategy = some "recursive") :
    variantToWire (transformVariant w) = w := by
  obtain ⟨i, vi, ch, cfg, st, er, cc, tt, pc, cr, ip, ds, rc, mr, ir, dl, ca, pa⟩ := w
  obtain ⟨c1, c2, strat, c4, c5, c6, c7, c8, c9, c10, c11⟩ := cfg
  dsimp only at h
  rcases ds with _ | d <;> rcases h with rfl | rfl | rfl <;>
    simp [transformVariant, variantToWire, toClientStrategy, strategyStr,
      dedupStats_roundtrip]

theorem transformVariant_roundtrip_witness :
    ((completedW.config.strategy = none ∨
        completedW.config.strategy = some "semantic" ∨
        completedW.config.strategy = some "recursive") ∧
      variantToWire (transformVariant completedW) = completedW) :=
  ⟨Or.inl rfl, transformVariant_roundtrip completedW (Or.inl rfl)⟩

/-- Server fixture whose 2xx chunk-fetch body decodes but has no `chunks`
array. -/
def srvMissingChunks : Server :=
  { upload := FetchResult.okRaw (some uploadW)
    statusAt := fun _ => FetchResult.okRaw (some completedW)
    chunksResp := FetchResult.okRaw (some { chunks := none, total := some 7 })
    elapsed := fun _ => 0 }

/-- Server fixture whose 2xx chunk-fetch body is undecodable JSON. -/
def srvChunksUndecodable : Server :=
  { upload := FetchResult.okRaw (some uploadW)
    statusAt := fun _ => FetchResult.okRaw (some completedW)
    chunksResp := FetchResult.okRaw none
    elapsed := fun _ => 0 }

/-- C9 counterexample: a 2xx chunk-fetch response whose body decodes but is
structurally unexpected (no `chunks` array) does NOT make `process` fail —
it returns a successful result with an empty chunk list (the silent empty
result the claim rules out), after issuing the chunk-fetch request. -/
theorem process_silent_empty_counterexample :
    (process srvMissingChunks 3 1000 {}).1 =
        some (Except.ok (completedResult uploadW [])) ∧
      (completedResult uploadW []).chunks = [] ∧
      (process srvMissingChunks 3 1000 {}).2.2 = 1 :=
  ⟨rfl, rfl, rfl⟩

/-- C9 (amended): on a 2xx chunk-fetch response, `process` fails with the
parse error (`chunksParse`, the source's "Failed to parse chunks
response") exactly when the body is undecodable JSON; a body that decodes
but lacks the `chunks` array instead yields a successful result with empty
chunks, and `getChunks` likewise maps such a body to an empty chunk list
rather than an error. -/
theorem process_chunks_body_handling
    (srv : Server) (cA cT : Nat) (opts : ProcessOptions) (u : BackendUploadResult)
    (v : BackendProcessingVariant) (A T : Nat)
    (hup : srv.upload = FetchResult.okRaw (some u))
    (hvid : u.variant_id ≠ "")
    (hwait : opts.wait.getD true = true)
    (hA : jsOr opts.maxPollAttempts cA = A)
    (hT : jsOr opts.pollTimeout cT = T)
    (h0 : srv.statusAt 0 = FetchResult.okRaw (some v))
    (hv : v.status = "completed")
    (hbound : 1 ≤ A)
    (he : srv.elapsed 1 ≤ T) :
    (srv.chunksResp = FetchResult.okRaw none →
      process srv cA cT opts =
        (some (Except.error ProcessError.chunksParse), 1, 1)) ∧
    (∀ t, srv.chunksResp = FetchResult.okRaw (some { chunks := none, total := t }) →
      process srv cA cT opts = (some (Except.ok (completedResult u [])), 1, 1)) ∧
    (∀ b : ChunksBody, b.chunks = none →
      getChunksFromBody (some b) = some ([], b.total.getD 0)) := by
  have hstep := pollLoop_step_completed srv.statusAt srv.elapsed A T A 0 v h0 hv
    (by omega) (by simpa using he)
  refine ⟨?_, ?_, ?_⟩
  · intro hc
    simp only [process, hup]
    rw [if_neg hvid, if_neg (by simp [hwait])]
    simp only [hA, hT]
    rw [hstep, hc]
  · intro t hc
    simp only [process, hup]
    rw [if_neg hvid, if_neg (by simp [hwait])]
    simp only [hA, hT]
    rw [hstep, hc]
    simp
  · intro b hb
    simp [getChunksFromBody, hb]

theorem process_chunks_body_handling_witness :
    process srvChunksUndecodable 3 1000 {} =
        (some (Except.error ProcessError.chunksParse), 1, 1) ∧
      process srvMissingChunks 3 1000 {} =
        (some (Except.ok (completedResult uploadW [])), 1, 1) :=
  ⟨(process_chunks_body_handling srvChunksUndecodable 3 1000 {} uploadW completedW
      3 1000 rfl (by decide) rfl rfl rfl rfl rfl (by omega) (Nat.zero_le _)).1 rfl,
   (process_chunks_body_handling srvMissingChunks 3 1000 {} uploadW completedW
      3 1000 rfl (by decide) rfl rfl rfl rfl rfl (by omega) (Nat.zero_le _)).2.1
     (some 7) rfl⟩

/-- The configuration of the C10 counterexample: a valid API key with an
explicit `timeout: 0`. -/
def zeroTimeoutConfig : RaptorConfig := { apiKey := "key", timeout := some 0 }

/-- The client the constructor builds from `zeroTimeoutConfig`: all three
bounds are the defaults. -/
def clientFromZeroTimeout : Client :=
  { apiKey := "key"
    urlProtocol := "https:"
    urlHostname := "api.raptordata.dev"
    timeout := 300000
    maxPollAttempts := 300
    pollTimeout := 300000 }

/-- C10 counterexample: the constructor does not reject every out-of-range
timeout — an explicit `timeout: 0` (outside `[1000, 3600000]`) is accepted,
because `config.timeout || 300000` treats `0` as unset and substitutes the
default. -/
theorem raptorConstructor_zero_timeout_counterexample :
    raptorConstructor zeroTimeoutConfig = Except.ok clientFromZeroTimeout ∧
      zeroTimeoutConfig.timeout = some 0 ∧ (0 : Nat) < 1000 :=
  ⟨rfl, rfl, by omega⟩

/-- C10 (amended): the constructor synchronously rejects an empty API key,
a base URL whose host is localhost or in a recognised private range unless
`dangerouslyAllowLocalhost` is set, a non-HTTP(S) base URL, and explicitly
provided NONZERO `timeout` / `maxPollAttempts` / `pollTimeout` values
outside `[1000, 3600000]` / `[1, 3600]` / `[1000, 3600000]`; a provided
`0` (like an omitted field) falls back to the in-range default via `||`.
Consequently every constructed client instance holds bounds within those
ranges. -/
theorem raptorConstructor_validation :
    (∀ cfg : RaptorConfig, cfg.apiKey = "" →
      raptorConstructor cfg = Except.error "API key is required") ∧
    (∀ cfg : RaptorConfig, ∀ p hn : String,
      jsTrim cfg.apiKey ≠ "" →
      cfg.baseUrl = some (ParsedUrl.parsed p hn) →
      isPrivateHost hn = true →
      cfg.dangerouslyAllowLocalhost.getD false = false →
      raptorConstructor cfg =
        Except.error "Base URL cannot point to localhost or private IP addresses") ∧
    (∀ cfg : RaptorConfig, ∀ p hn : String,
      jsTrim cfg.apiKey ≠ "" →
      cfg.baseUrl = some (ParsedUrl.parsed p hn) →
      isPrivateHost hn = false →
      p ≠ "http:" → p ≠ "https:" →
      raptorConstructor cfg =
        Except.error "Base URL must use HTTP or HTTPS protocol") ∧
    (∀ cfg : RaptorConfig, ∀ n : Nat,
      jsTrim cfg.apiKey ≠ "" → cfg.baseUrl = none →
      cfg.timeout = some n → n ≠ 0 → (n < 1000 ∨ n > 3600000) →
      raptorConstructor cfg =
        Except.error "Timeout must be between 1000ms (1s) and 3600000ms (1h)") ∧
    (∀ cfg : RaptorConfig, ∀ n : Nat,
      jsTrim cfg.apiKey ≠ "" → cfg.baseUrl = none → cfg.timeout = none →
      cfg.maxPollAttempts = some n → n ≠ 0 → (n < 1 ∨ n > 3600) →
      raptorConstructor cfg =
        Except.error "Max poll attempts must be between 1 and 3600") ∧
    (∀ cfg : RaptorConfig, ∀ n : Nat,
      jsTrim cfg.apiKey ≠ "" → cfg.baseUrl = none → cfg.timeout = none →
      cfg.maxPollAttempts = none →
      cfg.pollTimeout = some n → n ≠ 0 → (n < 1000 ∨ n > 3600000) →
      raptorConstructor cfg =
        Except.error "Poll timeout must be between 1000ms (1s) and 3600000ms (1h)") ∧
    (∀ cfg : RaptorConfig, ∀ c : Client, raptorConstructor cfg = Except.ok c →
      1000 ≤ c.timeout ∧ c.timeout ≤ 3600000 ∧
      1 ≤ c.maxPollAttempts ∧ c.maxPollAttempts ≤ 3600 ∧
      1000 ≤ c.pollTimeout ∧ c.pollTimeout ≤ 3600000) := by
  refine ⟨?_, ?_, ?_, ?_, ?_, ?_, ?_⟩
  · intro cfg h
    simp only [raptorConstructor]
    rw [if_pos (Or.inl h)]
  · intro cfg p hn hkey hurl hpriv hflag
    have hkey2 : ¬(cfg.apiKey = "" ∨ jsTrim cfg.apiKey = "") := by
      rintro (h | h)
      · exact hkey (by rw [h]; rfl)
      · exact hkey h
    simp [raptorConstructor, hkey2, hurl, hpriv, hflag]
  · intro cfg p hn hkey hurl hpriv hp1 hp2
    have hkey2 : ¬(cfg.apiKey = "" ∨ jsTrim cfg.apiKey = "") := by
      rintro (h | h)
      · exact hkey (by rw [h]; rfl)
      · exact hkey h
    simp [raptorConstructor, hkey2, hurl, hpriv, hp1, hp2]
  · intro cfg n hkey hurl ht hn0 hrange
    have hkey2 : ¬(cfg.apiKey = "" ∨ jsTrim cfg.apiKey = "") := by
      rintro (h | h)
      · exact hkey (by rw [h]; rfl)
      · exact hkey h
    have hj : jsOr cfg.timeout 300000 = n := by simp [jsOr, ht, hn0]
    have hhost : isPrivateHost "api.raptordata.dev" = false := by decide
    have hproto : ¬("https:" ≠ "http:" ∧ "https:" ≠ "https:") := by decide
    simp [raptorConstructor, hkey2, hurl, hj, hrange, hhost, hproto]
  · intro cfg n hkey hurl ht hm hn0 hrange
    have hkey2 : ¬(cfg.apiKey = "" ∨ jsTrim cfg.apiKey = "") := by
      rintro (h | h)
      · exact hkey (by rw [h]; rfl)
      · exact hkey h
    have hj : jsOr cfg.maxPollAttempts 300 = n := by simp [jsOr, hm, hn0]
    have hhost : isPrivateHost "api.raptordata.dev" = false := by decide
    have hproto : ¬("https:" ≠ "http:" ∧ "https:" ≠ "https:") := by decide
    have htd : jsOr cfg.timeout 300000 = 300000 := by simp [jsOr, ht]
    simp [raptorConstructor, hkey2, hurl, htd, hj, hrange, hhost, hproto]
    intro h1 h2
    exact absurd hrange (by omega)
  · intro cfg n hkey hurl ht hm hpt hn0 hrange
    have hkey2 : ¬(cfg.apiKey = "" ∨ jsTrim cfg.apiKey = "") := by
      rintro (h | h)
      · exact hkey (by rw [h]; rfl)
      · exact hkey h
    have hj : jsOr cfg.pollTimeout 300000 = n := by simp [jsOr, hpt, hn0]
    have hhost : isPrivateHost "api.raptordata.dev" = false := by decide
    have hproto : ¬("https:" ≠ "http:" ∧ "https:" ≠ "https:") := by decide
    have htd : jsOr cfg.timeout 300000 = 300000 := by simp [jsOr, ht]
    have hmd : jsOr cfg.maxPollAttempts 300 = 300 := by simp [jsOr, hm]
    simp [raptorConstructor, hkey2, hurl, htd, hmd, hj, hrange, hhost, hproto]
  · intro cfg c h
    simp only [raptorConstructor] at h
    split at h
    · simp at h
    · split at h
      · simp at h
      · split at h
        · simp at h
        · split at h
          · simp at h
          · split at h
            · simp at h
            · split at h
              · simp at h
              · split at h
                · simp at h
                · injection h with h
                  subst h
                  refine ⟨?_, ?_, ?_, ?_, ?_, ?_⟩ <;> dsimp only <;> omega

/-- Concrete configurations exercising each rejection of the constructor. -/
def emptyKeyConfig : RaptorConfig := { apiKey := "" }

def localhostConfig : RaptorConfig :=
  { apiKey := "key", baseUrl := some (ParsedUrl.parsed "http:" "localhost") }

def ftpConfig : RaptorConfig :=
  { apiKey := "key", baseUrl := some (ParsedUrl.parsed "ftp:" "example.com") }

def smallTimeoutConfig : RaptorConfig := { apiKey := "key", timeout := some 10 }

def bigAttemptsConfig : RaptorConfig := { apiKey := "key", maxPollAttempts := some 5000 }

def smallPollTimeoutConfig : RaptorConfig := { apiKey := "key", pollTimeout := some 10 }

theorem raptorConstructor_validation_witness :
    raptorConstructor emptyKeyConfig = Except.error "API key is required" ∧
    raptorConstructor localhostConfig =
      Except.error "Base URL cannot point to localhost or private IP addresses" ∧
    raptorConstructor ftpConfig =
      Except.error "Base URL must use HTTP or HTTPS protocol" ∧
    raptorConstructor smallTimeoutConfig =
      Except.error "Timeout must be between 1000ms (1s) and 3600000ms (1h)" ∧
    raptorConstructor bigAttemptsConfig =
      Except.error "Max poll attempts must be between 1 and 3600" ∧
    raptorConstructor smallPollTimeoutConfig =
      Except.error "Poll timeout must be between 1000ms (1s) and 3600000ms (1h)" ∧
    (1000 ≤ clientFromZeroTimeout.timeout ∧ clientFromZeroTimeout.timeout ≤ 3600000 ∧
      1 ≤ clientFromZeroTimeout.maxPollAttempts ∧
      clientFromZeroTimeout.maxPollAttempts ≤ 3600 ∧
      1000 ≤ clientFromZeroTimeout.pollTimeout ∧
      clientFromZeroTimeout.pollTimeout ≤ 3600000) :=
  ⟨raptorConstructor_validation.1 emptyKeyConfig rfl,
   raptorConstructor_validation.2.1 localhostConfig "http:" "localhost"
     (by decide) rfl (by decide) rfl,
   raptorConstructor_validation.2.2.1 ftpConfig "ftp:" "example.com"
     (by decide) rfl (by decide) (by decide) (by decide),
   raptorConstructor_validation.2.2.2.1 smallTimeoutConfig 10
     (by decide) rfl rfl (by omega) (Or.inl (by omega)),
   raptorConstructor_validation.2.2.2.2.1 bigAttemptsConfig 5000
     (by decide) rfl rfl rfl (by omega) (Or.inr (by omega)),
   raptorConstructor_validation.2.2.2.2.2.1 smallPollTimeoutConfig 10
     (by decide) rfl rfl rfl rfl (by omega) (Or.inl (by omega)),
   raptorConstructor_validation.2.2.2.2.2.2 zeroTimeoutConfig clientFromZeroTimeout rfl⟩

end RaptorSDK
